import Mathlib

set_option maxRecDepth 8000

/-!
Shallow embedding of the AI-activity detection layer of the
doom-while-ai-works editor extension.

Each detector facade is modelled as a pure state machine.  Timer callbacks
(heartbeat interval ticks, debounce timeouts, poll ticks) are explicit
events applied to the state; wall-clock time is passed in as a natural
number of milliseconds (the value the code obtains from Date.now()).
Callback invocations are recorded in an ordered output list of events.

String handling follows the TypeScript originals on the ASCII inputs the
detectors actually see.  The primitives below are structurally recursive
over character lists so that every theorem can be checked by evaluation:
trimChars models String.prototype.trim, lowerChars models toLowerCase,
occursIn models String.includes, and the line splitters model
split(sep) for the separators the code uses.
-/

/-- A callback invocation (or internal delta read) observable from a
detector: the thinking-start callback, the thinking-stop callback, or the
adapter reading and emitting an appended delta to its parser. -/
inductive Ev
  | start
  | stop
  | delta
  deriving DecidableEq, BEq

def countStart (l : List Ev) : Nat := l.countP (fun e => e == Ev.start)

def countStop (l : List Ev) : Nat := l.countP (fun e => e == Ev.stop)

def countDelta (l : List Ev) : Nat := l.countP (fun e => e == Ev.delta)

/-- ASCII lowercase of one character, as toLowerCase acts on ASCII. -/
def lowerChar (c : Char) : Char :=
  if 65 ≤ c.toNat ∧ c.toNat ≤ 90 then Char.ofNat (c.toNat + 32) else c

def lowerChars (cs : List Char) : List Char := cs.map lowerChar

/-- Whitespace as both String.prototype.trim and the regex class treat the
characters appearing in the observed files. -/
def isWsChar (c : Char) : Bool :=
  c == ' ' || c == '\t' || c == '\r' || c == '\n'

/-- String.prototype.trim over the character list. -/
def trimChars (cs : List Char) : List Char :=
  ((cs.dropWhile isWsChar).reverse.dropWhile isWsChar).reverse

/-- content.trim().toLowerCase() as CursorDetector.checkState computes it. -/
def normContent (s : String) : String := String.mk (lowerChars (trimChars s.data))

/-- Does the first list occur at the head of the second? -/
def leadsWith : List Char → List Char → Bool
  | [], _ => true
  | _ :: _, [] => false
  | a :: as, b :: bs => a == b && leadsWith as bs

/-- Does the first list occur contiguously anywhere in the second?  This
models JavaScript String.includes. -/
def occursIn (pat : List Char) : List Char → Bool
  | [] => pat.isEmpty
  | b :: bs => leadsWith pat (b :: bs) || occursIn pat bs

/-- String.includes on strings. -/
def strIncludes (s pat : String) : Bool := occursIn pat.data s.data

/-- split on a bare newline character, as content.split of a newline in
VSCodeCopilotDetector.parseLogContent. -/
def splitNlAux : List Char → List Char → List String
  | [], acc => [String.mk acc.reverse]
  | c :: rest, acc =>
    if c == '\n' then String.mk acc.reverse :: splitNlAux rest []
    else splitNlAux rest (c :: acc)

def splitNl (s : String) : List String := splitNlAux s.data []

/-- Drop one carriage return standing right before a newline (the
accumulator is reversed, so it sits at the head). -/
def dropLeadCr : List Char → List Char
  | '\r' :: t => t
  | l => l

/-- split on an optional carriage return followed by a newline, as
AntigravityDetector.analyzeChunk splits its chunk. -/
def splitCrNlAux : List Char → List Char → List String
  | [], acc => [String.mk acc.reverse]
  | c :: rest, acc =>
    if c == '\n' then String.mk (dropLeadCr acc).reverse :: splitCrNlAux rest []
    else splitCrNlAux rest (c :: acc)

def splitCrNl (s : String) : List String := splitCrNlAux s.data []

namespace Cursor

/-- STOP_DEBOUNCE_MS in CursorDetector. -/
def STOP_DEBOUNCE_MS : Nat := 5000

/-- The mutable fields of CursorDetector that drive its behaviour.
`watcher` is the fs.FSWatcher field (no code path ever assigns it);
`watchFileActive` records the fs.watchFile registration made by
startWatching; `heartbeat` records whether heartbeatInterval is armed;
`stopDebounce` holds the wall-clock deadline of the armed
stopDebounceTimer, if any. -/
structure State where
  watcher : Bool
  watchFileActive : Bool
  heartbeat : Bool
  stopDebounce : Option Nat
  deriving DecidableEq

/-- Detector state at construction. -/
def init : State :=
  { watcher := false, watchFileActive := false, heartbeat := false,
    stopDebounce := none }

/-- CursorDetector.checkState: re-read the sentinel file (none models a
missing file) and classify.  Content whose trimmed lowercased text equals
"thinking" cancels a pending stop debounce and ensures the heartbeat runs
(firing the start callback on the idle-to-thinking edge, as
startHeartbeat does); any other content arms the stop debounce timer when
the heartbeat is running and no debounce is pending. -/
def checkState (st : State) (content : Option String) (now : Nat) :
    State × List Ev :=
  match content with
  | none => (st, [])
  | some c =>
    if normContent c = "thinking" then
      let st1 : State := { st with stopDebounce := none }
      if st1.heartbeat then (st1, [])
      else ({ st1 with heartbeat := true }, [Ev.start])
    else
      if st.heartbeat = true ∧ st.stopDebounce = none then
        ({ st with stopDebounce := some (now + STOP_DEBOUNCE_MS) }, [])
      else (st, [])

/-- One tick of the 1-second heartbeat interval armed by startHeartbeat:
while armed it fires the start callback. -/
def heartbeatTick (st : State) : List Ev :=
  if st.heartbeat then [Ev.start] else []

/-- The body of the armed stopDebounceTimer firing: stopHeartbeat, fire
the stop callback, clear the timer field.  Only meaningful when
`st.stopDebounce` is armed. -/
def debounceElapsed (st : State) : State × List Ev :=
  ({ st with heartbeat := false, stopDebounce := none }, [Ev.stop])

/-- CursorDetector.startWatching: registers the fs.watchFile poll (the
initial checkState call is the same checkState function applied to the
current file content). -/
def startWatching (st : State) : State :=
  { st with watchFileActive := true }

/-- CursorDetector.stop: closes this.watcher if set and nulls the field.
It touches nothing else: the heartbeat interval, the stop debounce timer
and the fs.watchFile registration are left as they are. -/
def stop (st : State) : State :=
  { st with watcher := false }

end Cursor

/-- The claim-side classification predicate of C2, following the words of
the spec: strip control characters, compare case-insensitively, test for
the substring "thinking". -/
def specContainsThinking (s : String) : Bool :=
  occursIn "thinking".data
    (lowerChars (s.data.filter (fun c => !(c.toNat < 32 || c.toNat == 127))))

/-- The sentinel state reached by starting the detector on a file holding
"thinking" and then observing "idle" at time 1000: heartbeat running,
stop debounce armed for time 6000. -/
def cursorBusyState : Cursor.State :=
  (Cursor.checkState
    ((Cursor.checkState (Cursor.startWatching Cursor.init)
        (some "thinking") 0).1)
    (some "idle") 1000).1

namespace Copilot

/-- STARTUP_GRACE_PERIOD_MS in VSCodeCopilotDetector. -/
def STARTUP_GRACE_PERIOD_MS : Nat := 5000

/-- SILENCE_TIMEOUT_MS in VSCodeCopilotDetector. -/
def SILENCE_TIMEOUT_MS : Nat := 60000

/-- The mutable fields of VSCodeCopilotDetector: the recorded log size,
the internal thinking flag, the liveness watermark, and the construction
time the grace period is measured from. -/
structure State where
  currentSize : Nat
  isThinking : Bool
  lastActivityTime : Nat
  startupTime : Nat
  deriving DecidableEq

/-- Detector state at construction time `t`. -/
def init (t : Nat) : State :=
  { currentSize := 0, isThinking := false, lastActivityTime := 0,
    startupTime := t }

/-- A line carrying one of the fixed start-marker substrings. -/
def startLine (line : String) : Bool :=
  strIncludes line "[debug] AgentIntent:" ||
  strIncludes line "[debug] GH request id:"

/-- A line carrying one of the fixed end-marker substrings. -/
def endLine (line : String) : Bool :=
  strIncludes line "[info] request done:" ||
  strIncludes line "[info] message 0 returned. finish reason:"

/-- The additional ccreq summary end marker. -/
def ccreqEndLine (line : String) : Bool :=
  strIncludes line "ccreq:" &&
  (strIncludes line "| success" || strIncludes line "| failure" ||
    strIncludes line "| cancelled")

/-- The body of the per-line loop of
VSCodeCopilotDetector.parseLogContent.  A start-marker line seen while
not thinking inside the grace period is skipped whole (the continue); an
edge to thinking fires the start callback only when the window is
focused; any line while thinking refreshes the liveness watermark; end
markers clear the thinking flag without firing any callback. -/
def parseLine (st : State) (now : Nat) (focused : Bool) (line : String) :
    State × List Ev :=
  if startLine line ∧ st.isThinking = false ∧
      now - st.startupTime < STARTUP_GRACE_PERIOD_MS then
    (st, [])
  else
    let p1 : State × List Ev :=
      if startLine line then
        if st.isThinking then ({ st with lastActivityTime := now }, [])
        else ({ st with isThinking := true, lastActivityTime := now },
          if focused then [Ev.start] else [])
      else (st, [])
    let st2 := if p1.1.isThinking then { p1.1 with lastActivityTime := now }
      else p1.1
    let st3 := if endLine line ∧ st2.isThinking = true then
      { st2 with isThinking := false } else st2
    let st4 := if ccreqEndLine line ∧ st3.isThinking = true then
      { st3 with isThinking := false } else st3
    (st4, p1.2)

/-- The per-line loop over the split delta. -/
def parseLines (st : State) (now : Nat) (focused : Bool) :
    List String → State × List Ev
  | [] => (st, [])
  | l :: ls =>
    let r1 := parseLine st now focused l
    let r2 := parseLines r1.1 now focused ls
    (r2.1, r1.2 ++ r2.2)

/-- VSCodeCopilotDetector.parseLogContent. -/
def parseLogContent (st : State) (now : Nat) (focused : Bool)
    (content : String) : State × List Ev :=
  parseLines st now focused (splitNl content)

/-- VSCodeCopilotDetector.checkSilenceTimeout: after the silence window
passes with no liveness, clear the thinking flag.  No callback is
invoked. -/
def checkSilenceTimeout (st : State) (now : Nat) : State :=
  if st.isThinking = true ∧ now - st.lastActivityTime > SILENCE_TIMEOUT_MS
  then { st with isThinking := false } else st

/-- One poll of VSCodeCopilotDetector.checkLogs over the full current
file content (none models a missing file).  First sighting latches onto
the end; growth reads exactly the appended range and parses it; shrink
resets the recorded size and the thinking flag; then the silence timeout
is checked and, while thinking and focused, the per-poll keep-alive
start pulse fires. -/
def checkLogs (st : State) (file : Option String) (now : Nat)
    (focused : Bool) : State × List Ev :=
  match file with
  | none => (st, [])
  | some content =>
    let size := content.data.length
    if st.currentSize = 0 then ({ st with currentSize := size }, [])
    else
      let p1 : State × List Ev :=
        if size > st.currentSize then
          let delta := String.mk (content.data.drop st.currentSize)
          let p2 := parseLogContent { st with currentSize := size } now
            focused delta
          (p2.1, Ev.delta :: p2.2)
        else if size < st.currentSize then
          ({ st with currentSize := size, isThinking := false }, [])
        else (st, [])
      let st3 := checkSilenceTimeout p1.1 now
      (st3,
        p1.2 ++ (if st3.isThinking = true ∧ focused = true then [Ev.start]
          else []))

/-- VSCodeCopilotDetector.stop clears the poll interval; one poll tick is
therefore never delivered after stop.  (The poller handle itself carries
no further state.) -/
def stopPolling : Unit := ()

/-- A run of parseLogContent over a sequence of raw deltas, each tagged
with its arrival time and the window focus at that moment. -/
def runParseSeq (st : State) :
    List (Nat × Bool × String) → State × List Ev
  | [] => (st, [])
  | c :: cs =>
    let r1 := parseLogContent st c.1 c.2.1 c.2.2
    let r2 := runParseSeq r1.1 cs
    (r2.1, r1.2 ++ r2.2)

/-- The number of start-marker lines in one delta. -/
def startLineCount (content : String) : Nat :=
  (splitNl content).countP startLine

/-- The number of start-marker lines across a delta sequence. -/
def totalStartLines : List (Nat × Bool × String) → Nat
  | [] => 0
  | c :: cs => startLineCount c.2.2 + totalStartLines cs

end Copilot

namespace Anti

/-- LOG_TIMEOUT_MS in AntigravityDetector.checkWatchdog. -/
def LOG_TIMEOUT_MS : Nat := 10000

/-- The mutable fields of AntigravityDetector: recorded log size, the
active correlation token (the process id, or null), the pending user
intent flag, the tool-execution flag, and the liveness watermark. -/
structure State where
  currentSize : Nat
  activePid : Option Nat
  hasPendingUserRequest : Bool
  isToolExecuting : Bool
  lastLogTime : Nat
  deriving DecidableEq

/-- Detector state at construction. -/
def init : State :=
  { currentSize := 0, activePid := none, hasPendingUserRequest := false,
    isToolExecuting := false, lastLogTime := 0 }

/-- JavaScript truthiness of the number-or-null activePid field. -/
def pidTruthy : Option Nat → Bool
  | none => false
  | some p => p != 0

/-- Leading decimal digits of a character list, with the rest. -/
def splitDigits : List Char → List Char × List Char
  | [] => ([], [])
  | c :: cs =>
    if c.isDigit then
      let r := splitDigits cs
      (c :: r.1, r.2)
    else ([], c :: cs)

/-- Leading whitespace of a character list, with the rest. -/
def splitWs : List Char → List Char × List Char
  | [] => ([], [])
  | c :: cs =>
    if isWsChar c then
      let r := splitWs cs
      (c :: r.1, r.2)
    else ([], c :: cs)

/-- parseInt of a nonempty decimal digit run. -/
def digitsToNat : List Char → Nat :=
  List.foldl (fun n c => 10 * n + (c.toNat - 48)) 0

/-- Does the pid pattern — one whitespace character, a digit run, more
whitespace, then the literal name of the request helper source file —
match at this position? -/
def pidAt (cs : List Char) : Option Nat :=
  match cs with
  | [] => none
  | c :: rest =>
    if isWsChar c then
      let d := splitDigits rest
      if d.1.isEmpty then none
      else
        let w := splitWs d.2
        if w.1.isEmpty then none
        else if leadsWith "http_helpers.go".data w.2 then
          some (digitsToNat d.1)
        else none
    else none

/-- Leftmost match of the pid extraction pattern, as the regex match in
AntigravityDetector.analyzeChunk finds it. -/
def extractPid : List Char → Option Nat
  | [] => none
  | c :: cs =>
    match pidAt (c :: cs) with
    | some n => some n
    | none => extractPid cs

/-- AntigravityDetector.fireStop: clear the token and the tool flag,
zero the watermark, fire the stop callback. -/
def fireStop (st : State) : State × List Ev :=
  ({ st with activePid := none, isToolExecuting := false, lastLogTime := 0 },
    [Ev.stop])

/-- One line of the loop in AntigravityDetector.analyzeChunk: blank
lines and the suppressed internal-error line are skipped; a user-intent
line sets the pending flag and fires the start callback; a request line
adopts a new token only under a pending intent (firing the start
callback), silently ignores a repeat of the active token, and otherwise
force-stops the active token while ignoring the unrelated one. -/
def processLine (st : State) (now : Nat) (line : String) : State × List Ev :=
  if (trimChars line.data).isEmpty then (st, [])
  else if strIncludes line "antigravity.getChromeDevtoolsMcpUrl" then (st, [])
  else
    let p1 : State × List Ev :=
      if strIncludes line "Requesting planner" then
        ({ st with
            hasPendingUserRequest := true, isToolExecuting := false,
            lastLogTime := now }, [Ev.start])
      else (st, [])
    if strIncludes line "streamGenerateContent" then
      if p1.1.hasPendingUserRequest then
        match extractPid line.data with
        | some pid =>
          if some pid ≠ p1.1.activePid then
            ({ p1.1 with
                activePid := some pid, lastLogTime := now,
                hasPendingUserRequest := false }, p1.2 ++ [Ev.start])
          else (p1.1, p1.2)
        | none => (p1.1, p1.2)
      else
        match extractPid line.data with
        | some pid =>
          if pid ≠ 0 ∧ p1.1.activePid = some pid then (p1.1, p1.2)
          else if pidTruthy p1.1.activePid then
            let r := fireStop p1.1
            (r.1, p1.2 ++ r.2)
          else (p1.1, p1.2)
        | none =>
          if pidTruthy p1.1.activePid then
            let r := fireStop p1.1
            (r.1, p1.2 ++ r.2)
          else (p1.1, p1.2)
    else (p1.1, p1.2)

/-- The per-line loop over the split chunk. -/
def processLines (st : State) (now : Nat) : List String → State × List Ev
  | [] => (st, [])
  | l :: ls =>
    let r1 := processLine st now l
    let r2 := processLines r1.1 now ls
    (r2.1, r1.2 ++ r2.2)

/-- AntigravityDetector.analyzeChunk: refresh the watermark on any
non-blank chunk, run the per-line loop, record a tool call on its marker,
and force-stop on either explicit completion keyword found anywhere in
the chunk. -/
def analyzeChunk (st : State) (now : Nat) (chunk : String) :
    State × List Ev :=
  let st0 := if (trimChars chunk.data).isEmpty then st
    else { st with lastLogTime := now }
  let p1 := processLines st0 now (splitCrNl chunk)
  let st2 := if strIncludes chunk "argument order was not respected" then
    { p1.1 with isToolExecuting := true, lastLogTime := now } else p1.1
  if strIncludes chunk "PathsToReview" ∨ strIncludes chunk "BlockedOnUser"
  then
    let r := fireStop st2
    (r.1, p1.2 ++ r.2)
  else (st2, p1.2)

/-- AntigravityDetector.checkWatchdog: while a token is active and the
log has been silent past the timeout, force stop. -/
def checkWatchdog (st : State) (now : Nat) : State × List Ev :=
  if pidTruthy st.activePid = false then (st, [])
  else if now - st.lastLogTime > LOG_TIMEOUT_MS then fireStop st
  else (st, [])

/-- One poll of AntigravityDetector.checkLogs over the full current log
content (none models a missing file): growth reads exactly the appended
range and analyzes it; shrink only resets the recorded size; then the
watchdog is checked. -/
def checkLogs (st : State) (file : Option String) (now : Nat) :
    State × List Ev :=
  match file with
  | none => (st, [])
  | some content =>
    let size := content.data.length
    let p1 : State × List Ev :=
      if size > st.currentSize then
        let delta := String.mk (content.data.drop st.currentSize)
        let p2 := analyzeChunk { st with currentSize := size } now delta
        (p2.1, Ev.delta :: p2.2)
      else if size < st.currentSize then
        ({ st with currentSize := size }, [])
      else (st, [])
    let r := checkWatchdog p1.1 now
    (r.1, p1.2 ++ r.2)

end Anti

namespace Agg

/-- ACTIVITY_TIMEOUT_MS in extension.ts. -/
def ACTIVITY_TIMEOUT_MS : Nat := 10000

/-- The aggregator state owned by extension.ts: the presented thinking
flag and the armed fallback timer deadline. -/
structure State where
  isThinking : Bool
  activityDeadline : Option Nat
  deriving DecidableEq

/-- Aggregator state at activation. -/
def init : State := { isThinking := false, activityDeadline := none }

/-- handleActivity in extension.ts: on a start pulse, present thinking
if not already presenting it, then clear and re-arm the fallback timer
for ACTIVITY_TIMEOUT_MS from now. -/
def handleActivity (st : State) (now : Nat) : State :=
  let st1 := if st.isThinking then st else { st with isThinking := true }
  { st1 with activityDeadline := some (now + ACTIVITY_TIMEOUT_MS) }

/-- The armed fallback timer firing (setReady): stop presenting and
clear the timer. -/
def activityTimeoutFire (st : State) : State :=
  { st with isThinking := false, activityDeadline := none }

/-- The callback registered on the facade for onThinkingStop in
extension.ts activate: its body is commented out, so it does nothing. -/
def onThinkingStopHandler (st : State) : State := st

/-- Fold of handleActivity over a list of pulse arrival times. -/
def runPulses (st : State) : List Nat → State
  | [] => st
  | t :: ts => runPulses (handleActivity st t) ts

end Agg

/-- How extension.ts wires one detector callback invocation into the
aggregator: a start pulse runs handleActivity, a stop runs the no-op
handler, an internal delta read reaches no callback. -/
def wireEvent (now : Nat) (a : Agg.State) (e : Ev) : Agg.State :=
  match e with
  | Ev.start => Agg.handleActivity a now
  | Ev.stop => Agg.onThinkingStopHandler a
  | Ev.delta => a

/-- One poll of the structured-marker detector with its callbacks wired
to the aggregator as extension.ts wires them. -/
def combinedStep (cst : Copilot.State) (ag : Agg.State)
    (file : Option String) (now : Nat) (focused : Bool) :
    Copilot.State × Agg.State :=
  let r := Copilot.checkLogs cst file now focused
  (r.1, r.2.foldl (wireEvent now) ag)

/-- The correlated-profile scenario of C4, step 1: a pending-intent line
arrives. -/
def antiS1 : Anti.State × List Ev :=
  Anti.analyzeChunk Anti.init 1000 "Requesting planner"

/-- C4 scenario, step 2: a request line carrying token 123 arrives. -/
def antiS2 : Anti.State × List Ev :=
  Anti.analyzeChunk antiS1.1 2000
    "req 123 http_helpers.go streamGenerateContent"

/-- C4 scenario, step 3: an unrelated request line carrying token 456
arrives with no new pending intent. -/
def antiS3 : Anti.State × List Ev :=
  Anti.analyzeChunk antiS2.1 3000
    "req 456 http_helpers.go streamGenerateContent"

/-- Claim C1 (code_bug evaluation): at the concrete failing input — the
sentinel detector with its heartbeat interval running and its stop
debounce timer armed — calling stop() is idempotent, but it leaves the
heartbeat interval armed, the debounce timer armed and the watchFile
registration active, so a heartbeat tick after stop() still fires the
start callback and the armed debounce timer still fires the stop
callback.  This contradicts the claim that stop() cancels every pending
timer and that no callback can fire after stop() returns. -/
theorem cursor_stop_leaves_timers_armed :
    Cursor.stop (Cursor.stop cursorBusyState) = Cursor.stop cursorBusyState ∧
    (Cursor.stop cursorBusyState).heartbeat = true ∧
    (Cursor.stop cursorBusyState).stopDebounce = some 6000 ∧
    (Cursor.stop cursorBusyState).watchFileActive = true ∧
    Cursor.heartbeatTick (Cursor.stop cursorBusyState) = [Ev.start] ∧
    (Cursor.debounceElapsed (Cursor.stop cursorBusyState)).2 = [Ev.stop] := by
  decide

/-- Claim C2 (counterexample): the content "thinking now" contains the
substring "thinking" (case-insensitive, control characters stripped), yet
the sentinel re-read classifies it as Stop-class: from the idle state it
fires no start callback and starts no heartbeat, and from the thinking
state it arms the stop debounce timer. -/
theorem sentinel_substring_cex :
    specContainsThinking "thinking now" = true ∧
    (Cursor.checkState Cursor.init (some "thinking now") 0).1.heartbeat = false ∧
    (Cursor.checkState Cursor.init (some "thinking now") 0).2 = [] ∧
    (Cursor.checkState
        ((Cursor.checkState (Cursor.startWatching Cursor.init)
            (some "thinking") 0).1)
        (some "thinking now") 1000).1.stopDebounce = some 6000 := by
  decide

/-- Claim C2 (amended): on every re-read of the sentinel file, content
whose trimmed lowercased text equals exactly "thinking" is Start-class —
from a non-heartbeat state it starts the heartbeat and fires the start
callback — and any other content is Stop-class — from a heartbeat state
with no pending debounce it arms the stop debounce timer. -/
theorem sentinel_exact_match_classification (st : Cursor.State) (s : String)
    (now : Nat) :
    (st.heartbeat = false →
      ((Cursor.checkState st (some s) now).1.heartbeat = true ↔
        normContent s = "thinking")) ∧
    (st.heartbeat = false →
      ((Cursor.checkState st (some s) now).2 = [Ev.start] ↔
        normContent s = "thinking")) ∧
    (st.heartbeat = true → st.stopDebounce = none →
      ((Cursor.checkState st (some s) now).1.stopDebounce
          = some (now + Cursor.STOP_DEBOUNCE_MS) ↔
        ¬ normContent s = "thinking")) := by
  refine ⟨?_, ?_, ?_⟩
  · intro hb
    unfold Cursor.checkState
    by_cases h : normContent s = "thinking" <;> simp [h, hb]
  · intro hb
    unfold Cursor.checkState
    by_cases h : normContent s = "thinking" <;> simp [h, hb]
  · intro hb hd
    unfold Cursor.checkState
    by_cases h : normContent s = "thinking" <;> simp [h, hb, hd]

/-- Witness for the amended C2 theorem at a concrete input. -/
theorem sentinel_exact_match_classification_witness :
    (Cursor.checkState Cursor.init (some " Thinking ") 0).1.heartbeat = true :=
  ((sentinel_exact_match_classification Cursor.init " Thinking " 0).1 rfl).mpr
    (by decide)

theorem countStart_append (a b : List Ev) :
    countStart (a ++ b) = countStart a + countStart b := by
  simp [countStart, List.countP_append]

theorem copilot_parseLine_events (st : Copilot.State) (now : Nat) (f : Bool)
    (l : String) :
    (Copilot.parseLine st now f l).2 = [] ∨
      (Copilot.parseLine st now f l).2 = [Ev.start] := by
  simp only [Copilot.parseLine]
  split_ifs <;> simp

theorem copilot_parseLine_events_of_not_start (st : Copilot.State) (now : Nat)
    (f : Bool) (l : String) (h : Copilot.startLine l = false) :
    (Copilot.parseLine st now f l).2 = [] := by
  simp only [Copilot.parseLine]
  split_ifs <;> simp_all

theorem copilot_parseLine_grace (st : Copilot.State) (now : Nat) (f : Bool)
    (l : String)
    (h : now - st.startupTime < Copilot.STARTUP_GRACE_PERIOD_MS) :
    (Copilot.parseLine st now f l).2 = [] := by
  simp only [Copilot.parseLine]
  split_ifs <;> simp_all

theorem copilot_parseLine_unfocused (st : Copilot.State) (now : Nat)
    (l : String) :
    (Copilot.parseLine st now false l).2 = [] := by
  simp only [Copilot.parseLine]
  split_ifs <;> simp_all

theorem copilot_parseLine_startup (st : Copilot.State) (now : Nat) (f : Bool)
    (l : String) :
    (Copilot.parseLine st now f l).1.startupTime = st.startupTime := by
  simp only [Copilot.parseLine]
  split_ifs <;> rfl

theorem copilot_parseLine_countStart (st : Copilot.State) (now : Nat)
    (f : Bool) (l : String) :
    countStart (Copilot.parseLine st now f l).2 ≤
      (if Copilot.startLine l = true then 1 else 0) := by
  by_cases hs : Copilot.startLine l = true
  · rcases copilot_parseLine_events st now f l with h | h <;>
      rw [h] <;> simp [hs] <;> decide
  · simp [copilot_parseLine_events_of_not_start st now f l
      (by simpa using hs), hs, countStart]

theorem copilot_parseLines_countStart (now : Nat) (f : Bool)
    (ls : List String) : ∀ st : Copilot.State,
    countStart (Copilot.parseLines st now f ls).2 ≤
      ls.countP Copilot.startLine := by
  induction ls with
  | nil => intro st; simp [Copilot.parseLines, countStart]
  | cons l ls ih =>
    intro st
    have h1 := copilot_parseLine_countStart st now f l
    have h2 := ih (Copilot.parseLine st now f l).1
    simp only [Copilot.parseLines, List.countP_cons, countStart_append]
    by_cases hs : Copilot.startLine l = true <;> simp [hs] at h1 ⊢ <;> omega

theorem copilot_parseLines_grace (now : Nat) (f : Bool) (ls : List String) :
    ∀ st : Copilot.State,
    now - st.startupTime < Copilot.STARTUP_GRACE_PERIOD_MS →
    (Copilot.parseLines st now f ls).2 = [] := by
  induction ls with
  | nil => intro st _; rfl
  | cons l ls ih =>
    intro st h
    have h1 := copilot_parseLine_grace st now f l h
    have h2 := ih (Copilot.parseLine st now f l).1
      (by rw [copilot_parseLine_startup]; exact h)
    simp only [Copilot.parseLines, h1, h2, List.nil_append]

theorem copilot_parseLines_startup (now : Nat) (f : Bool) (ls : List String) :
    ∀ st : Copilot.State,
    (Copilot.parseLines st now f ls).1.startupTime = st.startupTime := by
  induction ls with
  | nil => intro st; rfl
  | cons l ls ih =>
    intro st
    simp only [Copilot.parseLines]
    rw [ih, copilot_parseLine_startup]

theorem copilot_parseLines_unfocused (now : Nat) (ls : List String) :
    ∀ st : Copilot.State, (Copilot.parseLines st now false ls).2 = [] := by
  induction ls with
  | nil => intro st; rfl
  | cons l ls ih =>
    intro st
    simp only [Copilot.parseLines, copilot_parseLine_unfocused, ih,
      List.nil_append]

theorem copilot_parseLines_no_stop (now : Nat) (f : Bool) (ls : List String) :
    ∀ st : Copilot.State, Ev.stop ∉ (Copilot.parseLines st now f ls).2 := by
  induction ls with
  | nil => intro st; simp [Copilot.parseLines]
  | cons l ls ih =>
    intro st
    simp only [Copilot.parseLines, List.mem_append]
    rintro (h | h)
    · rcases copilot_parseLine_events st now f l with he | he <;>
        simp [he] at h
    · exact ih _ h

theorem copilot_runParseSeq_startup (chunks : List (Nat × Bool × String)) :
    ∀ st : Copilot.State,
    (Copilot.runParseSeq st chunks).1.startupTime = st.startupTime := by
  induction chunks with
  | nil => intro st; rfl
  | cons c cs ih =>
    intro st
    simp only [Copilot.runParseSeq]
    rw [ih]
    exact copilot_parseLines_startup _ _ _ _

/-- Claim C8: for every sequence of raw deltas fed to the
structured-marker parser, the number of emitted Start signals never
exceeds the number of start-marker line occurrences, and if every delta
of the sequence arrives within the startup grace period then no Start
signal is emitted at all. -/
theorem copilot_start_signal_bound (st : Copilot.State)
    (chunks : List (Nat × Bool × String)) :
    countStart (Copilot.runParseSeq st chunks).2 ≤
      Copilot.totalStartLines chunks ∧
    ((∀ c ∈ chunks,
        c.1 - st.startupTime < Copilot.STARTUP_GRACE_PERIOD_MS) →
      countStart (Copilot.runParseSeq st chunks).2 = 0) := by
  constructor
  · induction chunks generalizing st with
    | nil => simp [Copilot.runParseSeq, countStart, Copilot.totalStartLines]
    | cons c cs ih =>
      have h1 := copilot_parseLines_countStart c.1 c.2.1 (splitNl c.2.2) st
      have h2 := ih (Copilot.parseLogContent st c.1 c.2.1 c.2.2).1
      simp only [Copilot.runParseSeq, Copilot.totalStartLines,
        countStart_append]
      simp only [Copilot.parseLogContent] at h1 h2 ⊢
      have h3 : Copilot.startLineCount c.2.2
          = (splitNl c.2.2).countP Copilot.startLine := rfl
      omega
  · induction chunks generalizing st with
    | nil => intro _; simp [Copilot.runParseSeq, countStart]
    | cons c cs ih =>
      intro h
      have h1 := copilot_parseLines_grace c.1 c.2.1 (splitNl c.2.2) st
        (h c (by simp))
      have hst := copilot_parseLines_startup c.1 c.2.1 (splitNl c.2.2) st
      have h2 := ih (Copilot.parseLogContent st c.1 c.2.1 c.2.2).1
        (by
          intro d hd
          have := h d (by simp [hd])
          simpa [Copilot.parseLogContent, hst] using this)
      simp only [Copilot.runParseSeq, countStart_append,
        Copilot.parseLogContent] at h2 ⊢
      rw [h1, h2]
      decide

/-- Witness for C8 at a concrete input: a single start-marker delta
arriving inside the grace period emits no Start signal. -/
theorem copilot_start_signal_bound_witness :
    countStart (Copilot.runParseSeq (Copilot.init 0)
      [(1000, true, "x [debug] AgentIntent: go")]).2 = 0 :=
  (copilot_start_signal_bound (Copilot.init 0)
    [(1000, true, "x [debug] AgentIntent: go")]).2 (by decide)

theorem copilot_checkLogs_no_stop (st : Copilot.State) (file : Option String)
    (now : Nat) (fo : Bool) :
    Ev.stop ∉ (Copilot.checkLogs st file now fo).2 := by
  cases file with
  | none => simp [Copilot.checkLogs]
  | some content =>
    have hp := copilot_parseLines_no_stop now fo
      (splitNl (String.mk (content.data.drop st.currentSize)))
      { st with currentSize := content.data.length }
    simp only [Copilot.checkLogs, Copilot.parseLogContent]
    split_ifs <;> simp_all [List.mem_append]

theorem copilot_checkLogs_no_start_unfocused (st : Copilot.State)
    (file : Option String) (now : Nat) :
    Ev.start ∉ (Copilot.checkLogs st file now false).2 := by
  cases file with
  | none => simp [Copilot.checkLogs]
  | some content =>
    have hp := copilot_parseLines_unfocused now
      (splitNl (String.mk (content.data.drop st.currentSize)))
      { st with currentSize := content.data.length }
    simp only [Copilot.checkLogs, Copilot.parseLogContent]
    split_ifs <;> simp_all [List.mem_append]

/-- Claim C3 (counterexample): in the structured-marker profile in the
Thinking state, after 70 seconds of silence (well past the 60-second
watchdog window) a poll force-clears the thinking flag but fires no
callback at all — the stop callback does not fire exactly once as
claimed, it fires zero times. -/
theorem copilot_silence_clears_without_callback_cex :
    (Copilot.checkLogs ⟨5, true, 0, 0⟩ (some "aaaaa") 70000 true).2 = [] ∧
    (Copilot.checkLogs ⟨5, true, 0, 0⟩ (some "aaaaa") 70000 true).1.isThinking
      = false ∧
    ¬ countStop
        (Copilot.checkLogs ⟨5, true, 0, 0⟩ (some "aaaaa") 70000 true).2
      = 1 := by
  decide

/-- Claim C3 (amended): when no liveness signal arrives past the silence
window while nominally Thinking, the detector force-transitions its
internal state to Idle: the structured-marker profile clears its
thinking flag and never fires the stop callback on any poll (the
presented stop is produced downstream by the aggregator timeout); the
correlated profile fires the stop callback exactly once, clearing its
token so the next watchdog check emits nothing; the sentinel profile
has no watchdog. -/
theorem watchdog_force_idle (cst : Copilot.State) (m : Nat) (ast : Anti.State)
    (p n n2 : Nat)
    (hc1 : cst.isThinking = true)
    (hc2 : m - cst.lastActivityTime > Copilot.SILENCE_TIMEOUT_MS)
    (ha1 : ast.activePid = some p) (ha2 : p ≠ 0)
    (ha3 : n - ast.lastLogTime > Anti.LOG_TIMEOUT_MS) :
    (Copilot.checkSilenceTimeout cst m).isThinking = false ∧
    (∀ file fo, Ev.stop ∉ (Copilot.checkLogs cst file m fo).2) ∧
    (Anti.checkWatchdog ast n).2 = [Ev.stop] ∧
    (Anti.checkWatchdog ast n).1.activePid = none ∧
    (Anti.checkWatchdog (Anti.checkWatchdog ast n).1 n2).2 = [] := by
  have hw : Anti.checkWatchdog ast n
      = ({ ast with
          activePid := none, isToolExecuting := false,
          lastLogTime := 0 }, [Ev.stop]) := by
    simp [Anti.checkWatchdog, Anti.pidTruthy, ha1, ha2, ha3, Anti.fireStop]
  refine ⟨?_, ?_, ?_, ?_, ?_⟩
  · simp [Copilot.checkSilenceTimeout, hc1, hc2]
  · intro file fo; exact copilot_checkLogs_no_stop cst file m fo
  · rw [hw]
  · rw [hw]
  · rw [hw]
    simp [Anti.checkWatchdog, Anti.pidTruthy]

/-- Witness for the amended C3 theorem at a concrete input. -/
theorem watchdog_force_idle_witness :
    (Anti.checkWatchdog ⟨0, some 123, false, false, 0⟩ 20000).2
      = [Ev.stop] :=
  (watchdog_force_idle ⟨1, true, 0, 0⟩ 70000 ⟨0, some 123, false, false, 0⟩
    123 20000 21000 rfl (by decide) rfl (by decide) (by decide)).2.2.1

/-- Claim C4 (counterexample): feeding the pending-intent line and then
the request line carrying token 123 fires the start callback twice —
once on the intent line and once on token adoption — not exactly once
as claimed. -/
theorem anti_intent_request_double_start_cex :
    countStart (antiS1.2 ++ antiS2.2) = 2 ∧
    ¬ countStart (antiS1.2 ++ antiS2.2) = 1 := by
  decide

/-- Claim C4 (amended): in the correlated-log profile, a pending-intent
line fires the start callback and sets the pending flag; the following
request line carrying token 123 fires the start callback a second time
while adopting the token and consuming the intent; a subsequently fed
unrelated request line carrying token 456 with no new pending intent
fires a forced Stop for token 123, and token 456 is not adopted. -/
theorem anti_correlation_scenario :
    antiS1.2 = [Ev.start] ∧ antiS1.1.hasPendingUserRequest = true ∧
    antiS2.2 = [Ev.start] ∧ antiS2.1.activePid = some 123 ∧
    antiS2.1.hasPendingUserRequest = false ∧
    antiS3.2 = [Ev.stop] ∧ antiS3.1.activePid = none := by
  decide

/-- Claim C5 (counterexample): the correlated profile has no debounce:
with token 123 active, a Stop classification (an explicit completion
keyword) immediately fires the stop callback, so a Start classification
arriving 100 ms later — long before any debounce window could elapse —
does not prevent the stop callback from having been invoked. -/
theorem anti_stop_then_start_cex :
    countStop ((Anti.analyzeChunk ⟨0, some 123, false, false, 1000⟩ 1500
        "x PathsToReview y").2 ++
      (Anti.analyzeChunk
          (Anti.analyzeChunk ⟨0, some 123, false, false, 1000⟩ 1500
            "x PathsToReview y").1 1600 "Requesting planner").2) = 1 ∧
    ¬ countStop ((Anti.analyzeChunk ⟨0, some 123, false, false, 1000⟩ 1500
        "x PathsToReview y").2 ++
      (Anti.analyzeChunk
          (Anti.analyzeChunk ⟨0, some 123, false, false, 1000⟩ 1500
            "x PathsToReview y").1 1600 "Requesting planner").2) = 0 := by
  decide

/-- Claim C5 (amended): in the sentinel profile — the only detector with
a stop debounce timer — a Stop classification from the thinking state
arms the debounce without firing anything, and a Start classification
processed while the timer is still armed cancels it, leaving the
heartbeat running with no callback fired; the structured-marker profile
never invokes the stop callback at all; the correlated profile fires the
stop callback immediately on a Stop classification with no debounce. -/
theorem debounce_cancellation (st : Cursor.State) (c1 c2 : String)
    (t1 t2 : Nat) (cst : Copilot.State) (file : Option String) (n : Nat)
    (fo : Bool)
    (hb : st.heartbeat = true) (hd : st.stopDebounce = none)
    (h1 : ¬ normContent c1 = "thinking")
    (h2 : normContent c2 = "thinking") :
    (Cursor.checkState st (some c1) t1).2 = [] ∧
    (Cursor.checkState st (some c1) t1).1.stopDebounce
      = some (t1 + Cursor.STOP_DEBOUNCE_MS) ∧
    (Cursor.checkState (Cursor.checkState st (some c1) t1).1 (some c2)
        t2).2 = [] ∧
    (Cursor.checkState (Cursor.checkState st (some c1) t1).1 (some c2)
        t2).1.stopDebounce = none ∧
    (Cursor.checkState (Cursor.checkState st (some c1) t1).1 (some c2)
        t2).1.heartbeat = true ∧
    Ev.stop ∉ (Copilot.checkLogs cst file n fo).2 := by
  have hs1 : Cursor.checkState st (some c1) t1
      = ({ st with stopDebounce := some (t1 + Cursor.STOP_DEBOUNCE_MS) },
        []) := by
    simp [Cursor.checkState, h1, hb, hd]
  refine ⟨by rw [hs1], by rw [hs1], ?_, ?_, ?_,
    copilot_checkLogs_no_stop cst file n fo⟩
  all_goals rw [hs1]; simp [Cursor.checkState, h2, hb]

/-- Witness for the amended C5 theorem at a concrete input. -/
theorem debounce_cancellation_witness :
    (Cursor.checkState
        (Cursor.checkState
          ((Cursor.checkState (Cursor.startWatching Cursor.init)
              (some "thinking") 0).1) (some "idle") 1000).1
        (some "thinking") 2000).1.stopDebounce = none :=
  (debounce_cancellation
    ((Cursor.checkState (Cursor.startWatching Cursor.init)
        (some "thinking") 0).1)
    "idle" "thinking" 1000 2000 (Copilot.init 0) none 0 true
    (by decide) (by decide) (by decide) (by decide)).2.2.2.1

/-- Claim C6 (counterexample): in the correlated profile with token 123
active, a poll that observes the log shrunk from 100 bytes to 4 resets
the read cursor but keeps the active token — the internal classification
state does not reset to Idle as claimed. -/
theorem anti_truncation_keeps_token_cex :
    (Anti.checkLogs ⟨100, some 123, false, false, 50⟩ (some "aaaa")
        51).1.activePid = some 123 ∧
    (Anti.checkLogs ⟨100, some 123, false, false, 50⟩ (some "aaaa")
        51).1.currentSize = 4 ∧
    (Anti.checkLogs ⟨100, some 123, false, false, 50⟩ (some "aaaa")
        51).2 = [] := by
  decide

/-- Claim C6 (amended): on observing a shrunken artifact both log-tail
adapters reset the read cursor to the new smaller size without reading
backward and emit no delta and no callback; the structured-marker
profile additionally resets its thinking flag to idle, bypassing the
debounce-free stop path entirely, while the correlated profile keeps its
active token (until the watchdog or an explicit stop clears it). -/
theorem truncation_reset (cst : Copilot.State) (ast : Anti.State)
    (c1 c2 : String) (n m : Nat) (fo : Bool)
    (h0 : ¬ cst.currentSize = 0)
    (h1 : c1.data.length < cst.currentSize)
    (h2 : c2.data.length < ast.currentSize)
    (h3 : ¬ m - ast.lastLogTime > Anti.LOG_TIMEOUT_MS) :
    (Copilot.checkLogs cst (some c1) n fo).1.currentSize
      = c1.data.length ∧
    (Copilot.checkLogs cst (some c1) n fo).1.isThinking = false ∧
    (Copilot.checkLogs cst (some c1) n fo).2 = [] ∧
    (Anti.checkLogs ast (some c2) m).1.currentSize = c2.data.length ∧
    (Anti.checkLogs ast (some c2) m).1.activePid = ast.activePid ∧
    (Anti.checkLogs ast (some c2) m).2 = [] := by
  have e1 : ¬ c1.data.length > cst.currentSize := by omega
  have e2 : ¬ c2.data.length > ast.currentSize := by omega
  have hcop : Copilot.checkLogs cst (some c1) n fo
      = ({ cst with currentSize := c1.data.length, isThinking := false },
        []) := by
    simp only [Copilot.checkLogs]
    rw [if_neg h0, if_neg e1, if_pos h1]
    simp [Copilot.checkSilenceTimeout]
  have hanti : Anti.checkLogs ast (some c2) m
      = ({ ast with currentSize := c2.data.length }, []) := by
    simp only [Anti.checkLogs]
    rw [if_neg e2, if_pos h2]
    simp only [Anti.checkWatchdog]
    split_ifs <;> simp
  refine ⟨by rw [hcop], by rw [hcop], by rw [hcop], by rw [hanti],
    by rw [hanti], by rw [hanti]⟩

/-- Witness for the amended C6 theorem at a concrete input. -/
theorem truncation_reset_witness :
    (Anti.checkLogs ⟨10, some 7, false, false, 50⟩ (some "abc")
        51).1.activePid = some 7 :=
  (truncation_reset ⟨10, true, 0, 0⟩ ⟨10, some 7, false, false, 50⟩
    "ab" "abc" 5 51 true (by decide) (by decide) (by decide)
    (by decide)).2.2.2.2.1

theorem agg_handleActivity_fields (st : Agg.State) (now : Nat) :
    (Agg.handleActivity st now).isThinking = true ∧
    (Agg.handleActivity st now).activityDeadline
      = some (now + Agg.ACTIVITY_TIMEOUT_MS) := by
  simp only [Agg.handleActivity]
  split_ifs <;> simp_all

theorem agg_runPulses_append (l : List Nat) (a : Nat) :
    ∀ st : Agg.State,
    Agg.runPulses st (l ++ [a])
      = Agg.handleActivity (Agg.runPulses st l) a := by
  induction l with
  | nil => intro st; rfl
  | cons t ts ih =>
    intro st
    simp only [List.cons_append, Agg.runPulses]
    exact ih _

/-- Claim C7: after any pulse stream ending with a pulse at time a, the
aggregator presents thinking and its fallback timer deadline sits a full
ACTIVITY_TIMEOUT_MS past a, so a next pulse at time b within one second
arrives strictly before the deadline — the fallback timer is re-armed
before it can ever fire, and the presented state stays thinking for as
long as such pulses keep arriving; moreover the facade onThinkingStop
callback is wired to a handler that does nothing, so the presented stop
is driven solely by pulse-absence timeout. -/
theorem aggregator_pulse_stream (pre : List Nat) (a b : Nat)
    (st2 : Agg.State) (h : b ≤ a + 1000) :
    (Agg.runPulses Agg.init (pre ++ [a])).isThinking = true ∧
    (Agg.runPulses Agg.init (pre ++ [a])).activityDeadline
      = some (a + Agg.ACTIVITY_TIMEOUT_MS) ∧
    b < a + Agg.ACTIVITY_TIMEOUT_MS ∧
    Agg.onThinkingStopHandler st2 = st2 := by
  rw [agg_runPulses_append]
  refine ⟨(agg_handleActivity_fields _ _).1,
    (agg_handleActivity_fields _ _).2, ?_, rfl⟩
  have ht : Agg.ACTIVITY_TIMEOUT_MS = 10000 := rfl
  omega

/-- Witness for C7 at a concrete input. -/
theorem aggregator_pulse_stream_witness :
    (Agg.runPulses Agg.init ([0, 1000] ++ [2000])).isThinking = true :=
  (aggregator_pulse_stream [0, 1000] 2000 3000 Agg.init (by decide)).1

theorem copilot_checkLogs_events_nogrowth (st : Copilot.State)
    (content : String) (now : Nat) (fo : Bool)
    (hng : ¬ content.data.length > st.currentSize) :
    (Copilot.checkLogs st (some content) now fo).2 = [] ∨
    (Copilot.checkLogs st (some content) now fo).2 = [Ev.start] := by
  simp only [Copilot.checkLogs, Copilot.checkSilenceTimeout]
  split_ifs <;> first | (exfalso; omega) | simp

theorem anti_checkLogs_events_nogrowth (st : Anti.State) (content : String)
    (now : Nat) (hng : ¬ content.data.length > st.currentSize) :
    (Anti.checkLogs st (some content) now).2 = [] ∨
    (Anti.checkLogs st (some content) now).2 = [Ev.stop] := by
  simp only [Anti.checkLogs, Anti.checkWatchdog, Anti.fireStop]
  split_ifs <;> first | (exfalso; omega) | simp

/-- Claim C9: for both log-tail adapters, a poll observing a size no
larger than the recorded size (in particular a duplicate notification at
the exact recorded size) reads and emits zero deltas, and conversely a
poll that does emit a delta must have observed a size strictly above the
recorded one. -/
theorem duplicate_notification_no_delta (cst : Copilot.State)
    (ast : Anti.State) (c1 c2 : String) (n m : Nat) (fo : Bool) :
    (c1.data.length ≤ cst.currentSize →
      countDelta (Copilot.checkLogs cst (some c1) n fo).2 = 0) ∧
    (¬ countDelta (Copilot.checkLogs cst (some c1) n fo).2 = 0 →
      c1.data.length > cst.currentSize) ∧
    (c2.data.length ≤ ast.currentSize →
      countDelta (Anti.checkLogs ast (some c2) m).2 = 0) ∧
    (¬ countDelta (Anti.checkLogs ast (some c2) m).2 = 0 →
      c2.data.length > ast.currentSize) := by
  have hcop : c1.data.length ≤ cst.currentSize →
      countDelta (Copilot.checkLogs cst (some c1) n fo).2 = 0 := by
    intro hle
    rcases copilot_checkLogs_events_nogrowth cst c1 n fo (by omega)
      with h | h <;> rw [h] <;> decide
  have hanti : c2.data.length ≤ ast.currentSize →
      countDelta (Anti.checkLogs ast (some c2) m).2 = 0 := by
    intro hle
    rcases anti_checkLogs_events_nogrowth ast c2 m (by omega)
      with h | h <;> rw [h] <;> decide
  refine ⟨hcop, ?_, hanti, ?_⟩
  · intro hne
    by_contra hng
    exact hne (hcop (by omega))
  · intro hne
    by_contra hng
    exact hne (hanti (by omega))

/-- Witness for C9 at a concrete input: a duplicate notification at the
recorded size of each adapter emits zero deltas. -/
theorem duplicate_notification_no_delta_witness :
    countDelta (Copilot.checkLogs ⟨5, false, 0, 0⟩ (some "aaaaa") 9
      true).2 = 0 ∧
    countDelta (Anti.checkLogs ⟨3, none, false, false, 0⟩ (some "abc")
      9).2 = 0 :=
  ⟨(duplicate_notification_no_delta ⟨5, false, 0, 0⟩
      ⟨3, none, false, false, 0⟩ "aaaaa" "abc" 9 9 true).1 (by decide),
    (duplicate_notification_no_delta ⟨5, false, 0, 0⟩
      ⟨3, none, false, false, 0⟩ "aaaaa" "abc" 9 9 true).2.2.1 (by decide)⟩

theorem agg_fold_no_start (now : Nat) (l : List Ev) :
    ∀ ag : Agg.State, Ev.start ∉ l → l.foldl (wireEvent now) ag = ag := by
  induction l with
  | nil => intro ag _; rfl
  | cons e es ih =>
    intro ag h
    simp only [List.foldl_cons]
    have he : ¬ e = Ev.start := fun hh => h (by simp [hh])
    have hw : wireEvent now ag e = ag := by
      cases e with
      | start => exact absurd rfl he
      | stop => rfl
      | delta => rfl
    rw [hw]
    exact ih ag (fun hm => h (by simp [hm]))

/-- Claim C10: in the structured-marker profile, the thinking-start
callback — the edge transition and the per-poll keep-alive pulse alike —
fires only while the window is focused: an unfocused poll emits no start
event at all, an unfocused parse of any delta emits nothing, a
start-marker line processed while unfocused (past the grace period)
still sets the internal thinking flag while firing no callback, and an
unfocused poll can never move the aggregator into the presented-thinking
state. -/
theorem copilot_focus_gating (cst : Copilot.State) (file : Option String)
    (content line : String) (now : Nat) (ag : Agg.State)
    (hIdle : cst.isThinking = false)
    (hGrace : Copilot.STARTUP_GRACE_PERIOD_MS ≤ now - cst.startupTime)
    (hLine : Copilot.startLine line = true)
    (hE : Copilot.endLine line = false)
    (hC : Copilot.ccreqEndLine line = false)
    (hAg : ag.isThinking = false) :
    Ev.start ∉ (Copilot.checkLogs cst file now false).2 ∧
    (Copilot.parseLogContent cst now false content).2 = [] ∧
    (Copilot.parseLine cst now false line).1.isThinking = true ∧
    (Copilot.parseLine cst now false line).2 = [] ∧
    (combinedStep cst ag file now false).2.isThinking = false := by
  refine ⟨copilot_checkLogs_no_start_unfocused cst file now,
    copilot_parseLines_unfocused now (splitNl content) cst, ?_, ?_, ?_⟩
  · have hng : ¬ (now - cst.startupTime < Copilot.STARTUP_GRACE_PERIOD_MS) :=
      by omega
    simp [Copilot.parseLine, hIdle, hLine, hE, hC, hng]
  · exact copilot_parseLine_unfocused cst now line
  · simp only [combinedStep]
    rw [agg_fold_no_start now _ ag
      (copilot_checkLogs_no_start_unfocused cst file now)]
    exact hAg

/-- Witness for C10 at a concrete input. -/
theorem copilot_focus_gating_witness :
    (Copilot.parseLine (Copilot.init 0) 5000 false
        " [debug] AgentIntent: go").1.isThinking = true :=
  (copilot_focus_gating (Copilot.init 0) none "x"
    " [debug] AgentIntent: go" 5000 Agg.init rfl (by decide) (by decide)
    (by decide) (by decide) rfl).2.2.1
